import Mathlib

/-!
Verification of the customer-segmentation web application.

This file shallow-embeds the core logic of the repository:

* `app.py` — `allowed_file`, `generate_insights` (per-cluster aggregation,
  gender percentages, gender-profile rule, the ordered label decision table),
  and the `analyze` pipeline (schema validation, clustering, KPIs).
* `app/model.py` — the scaler-fitting step of `cluster_income`
  (the pretrained-model deployment variant).

Numeric values (pandas float64 columns and their means) are embedded as
rationals; Python's built-in `round` (round-half-to-even) is embedded as
`pyRound`.  Missing values in the `Gender` column are embedded as `none`,
matching pandas NaN, because `Series.value_counts` drops NaN by default.
-/

namespace CustomerSeg

/-- Python's built-in `round` on a real value: round to the nearest integer,
ties going to the even integer (banker's rounding), as CPython and numpy do. -/
def pyRound (q : ℚ) : ℤ :=
  let n := ⌊q⌋
  let f := q - (n : ℚ)
  if f < 1/2 then n
  else if 1/2 < f then n + 1
  else if n % 2 = 0 then n else n + 1

/-- Python `round(x, 1)`: round half to even at one decimal place. -/
def round1 (q : ℚ) : ℚ := (pyRound (10 * q) : ℚ) / 10

/-- Python `round(x, 2)`: round half to even at two decimal places. -/
def round2 (q : ℚ) : ℚ := (pyRound (100 * q) : ℚ) / 100

/-- One row of the clustered DataFrame in `app.py` (`df` after line 193):
the four required columns plus the appended `Cluster` column.  `gender` is
`none` when the CSV cell is missing (pandas NaN); any non-missing string
(also values other than "Male"/"Female") is `some`. -/
structure Record where
  gender : Option String
  age : ℚ
  income : ℚ
  score : ℚ
  cluster : ℤ
deriving DecidableEq, Repr

/-- One row of the raw DataFrame before clustering (`df` after line 178). -/
structure RawRecord where
  gender : Option String
  age : ℚ
  income : ℚ
  score : ℚ
deriving DecidableEq, Repr

/-- Attach a cluster id to a raw record (line 193: `df['Cluster'] = ...`). -/
def RawRecord.withCluster (r : RawRecord) (c : ℤ) : Record :=
  { gender := r.gender, age := r.age, income := r.income, score := r.score, cluster := c }

/-- Mean of a list of rationals, as pandas `Series.mean` computes it
(sum divided by count; the `0/0 = 0` convention of `ℚ` only arises for the
empty list, which pandas maps to NaN — all uses below are on non-empty lists
or guarded by the claims' hypotheses). -/
def qmean (l : List ℚ) : ℚ := l.sum / (l.length : ℚ)

/-- Rows of the DataFrame belonging to one cluster
(`app.py` line 51: `df[df['Cluster'] == cluster_id]`). -/
def clusterRows (df : List Record) (i : ℤ) : List Record :=
  df.filter (fun r => r.cluster == i)

/-- The distinct cluster ids of the DataFrame in ascending order, the group
keys over which `df.groupby('Cluster')` iterates (pandas sorts group keys). -/
def distinctClusters (df : List Record) : List ℤ :=
  ((df.map (fun r => r.cluster)).toFinset).sort (· ≤ ·)

/-- Number of rows of the cluster whose `Gender` cell is non-missing: the
normalization denominator of `value_counts(normalize=True)`, which drops NaN. -/
def knownGenderCount (rows : List Record) : ℕ :=
  rows.countP (fun r => r.gender.isSome)

/-- Number of rows of the cluster whose `Gender` cell equals `g`. -/
def genderCount (rows : List Record) (g : String) : ℕ :=
  rows.countP (fun r => r.gender == some g)

/-- The `female_pct` computation of `app.py` lines 58–59:
`round(cluster_data['Gender'].value_counts(normalize=True).get('Female', 0) * 100)`.
`value_counts(normalize=True)` divides the count of each non-null value by the
number of non-null entries; `.get` returns 0 when the value is absent, which
coincides with the `ℚ` convention `x / 0 = 0` when every gender is missing. -/
def femalePctOf (rows : List Record) : ℤ :=
  pyRound ((genderCount rows "Female" : ℚ) / (knownGenderCount rows : ℚ) * 100)

/-- The `male_pct` computation of `app.py` lines 58 and 60. -/
def malePctOf (rows : List Record) : ℤ :=
  pyRound ((genderCount rows "Male" : ℚ) / (knownGenderCount rows : ℚ) * 100)

/-- Modelled from the spec (refinement comparison for the gender-percentage
claim): the claimed percentage whose denominator is the total number of rows
in the cluster, including rows with a missing gender value. -/
def specFemalePctOf (rows : List Record) : ℤ :=
  pyRound (100 * (genderCount rows "Female" : ℚ) / (rows.length : ℚ))

/-- The gender-profile branch of `app.py` lines 62–70, returning
`(gender_profile, gender_icon)`. -/
def genderProfile (fp mp : ℤ) : String × String :=
  if fp > 55 then ("Female Dominated", "bi-gender-female")
  else if mp > 55 then ("Male Dominated", "bi-gender-male")
  else ("Balanced", "bi-gender-ambiguous")

/-- Rule 1 of the label decision table (`app.py` line 72). -/
def vipRule (income score : ℚ) : Prop := income > 70 ∧ score > 70

/-- Rule 2 of the label decision table (`app.py` line 90). -/
def saverRule (income score : ℚ) : Prop := income > 70 ∧ score < 40

/-- Rule 3 of the label decision table (`app.py` line 99). -/
def trendRule (income score : ℚ) : Prop := income < 40 ∧ score > 60

/-- Rule 4 of the label decision table (`app.py` line 110). -/
def budgetRule (income score : ℚ) : Prop := income < 40 ∧ score < 40

/-- The ordered label decision table of `app.py` lines 72–125, returning
`(label, color, desc, action)`. -/
def segmentRule (income score avg_age : ℚ) : String × String × String × String :=
  if income > 70 ∧ score > 70 then
    if avg_age < 35 then
      ("VIP / Big Spenders", "success",
        "Young, wealthy, and loves to spend. Target for luxury fashion and trending tech.",
        "Campaign: Instagram/TikTok Influencers promoting exclusive \x27Drops\x27.")
    else
      ("VIP / Big Spenders", "success",
        "Established wealth with high consumption habits.",
        "Campaign: Exclusive VIP Club membership & Concierge services.")
  else if income > 70 ∧ score < 40 then
    ("Wealthy Savers", "warning",
      "High earning potential but careful with money.",
      "Campaign: Focus on \x27Value for Money\x27, Investment products, or \x27Buy It For Life\x27 quality.")
  else if income < 40 ∧ score > 60 then
    ("Young Trendsetters", "info",
      "Likely students or young professionals spending on trends.",
      "Campaign: Flash Sales, \x27Buy Now Pay Later\x27 offers, and discount coupons.")
  else if income < 40 ∧ score < 40 then
    ("Budget Conscious", "secondary",
      "Strict budget constraints. Only buys essentials.",
      "Campaign: Clearance sales, bulk discounts, and loyalty points.")
  else
    ("Average Customer", "primary",
      "Steady income and average spending habits.",
      "Campaign: Standard newsletter, seasonal promotions, and retention offers.")

/-- One entry of the list built by `generate_insights` (`app.py` lines 127–141). -/
structure Insight where
  cluster : ℤ
  label : String
  color : String
  size : ℕ
  avg_income : ℚ
  avg_score : ℚ
  avg_age : ℤ
  gender_profile : String
  gender_icon : String
  female_pct : ℤ
  male_pct : ℤ
  desc : String
  action : String
deriving DecidableEq, Repr

/-- The body of the `generate_insights` loop for one cluster id
(`app.py` lines 50–141).  The per-cluster means from
`df.groupby('Cluster')[...].mean()` equal the column means over the rows of
that cluster (no NaN in the numeric columns of the embedding). -/
def insightFor (df : List Record) (i : ℤ) : Insight :=
  let rows := clusterRows df i
  let avg_age := qmean (rows.map (fun r => r.age))
  let income := qmean (rows.map (fun r => r.income))
  let score := qmean (rows.map (fun r => r.score))
  let fp := femalePctOf rows
  let mp := malePctOf rows
  let gp := genderProfile fp mp
  let seg := segmentRule income score avg_age
  { cluster := i
    label := seg.1
    color := seg.2.1
    size := rows.length
    avg_income := round1 income
    avg_score := round1 score
    avg_age := pyRound avg_age
    gender_profile := gp.1
    gender_icon := gp.2
    female_pct := fp
    male_pct := mp
    desc := seg.2.2.1
    action := seg.2.2.2 }

/-- `generate_insights` (`app.py` lines 33–143): one insight per distinct
cluster id, in ascending cluster-id order. -/
def generate_insights (df : List Record) : List Insight :=
  (distinctClusters df).map (insightFor df)

/-- The aggregate KPI dictionary of `app.py` lines 216–220. -/
structure Kpis where
  total_customers : ℕ
  avg_income : ℚ
  avg_score : ℚ
deriving DecidableEq, Repr

/-- `kpis = {...}` of `app.py` lines 216–220. -/
def kpisOf (df : List Record) : Kpis :=
  { total_customers := df.length
    avg_income := round2 (qmean (df.map (fun r => r.income)))
    avg_score := round2 (qmean (df.map (fun r => r.score))) }

/-- The required columns of `app.py` lines 180–182. -/
def requiredCols : List String :=
  ["Gender", "Age", "Annual Income (k$)", "Spending Score (1-100)"]

/-- The flash message of `app.py` lines 184–186:
`f'Error: CSV missing columns. Required: \x7b", ".join(required_cols)\x7d'`. -/
def schemaErrorMsg : String :=
  "Error: CSV missing columns. Required: " ++ String.intercalate ", " requiredCols

/-- Modelled from the spec: the clustering step delegated to
`sklearn.cluster.KMeans(...).fit_predict` (`app.py` lines 190–193), an
external library whose code is not part of this repository.  Its failure
contract is taken from the spec: it fails with a `ClusteringError` when fewer
than K distinct feature points exist (a feature column with fewer than 2
non-null values is subsumed here, since the embedded feature columns carry no
nulls and a list shorter than 2 has fewer than 2 ≤ K distinct points).  The
successful assignment is a deterministic placeholder (the claims settled
against this model quantify over arbitrary assignments or concern only the
failure path). -/
def kmeansFitPredict (K : ℕ) (X : List (ℚ × ℚ)) : Except String (List ℤ) :=
  if X.dedup.length < K then
    Except.error "ClusteringError"
  else
    Except.ok (X.map (fun x => ((X.dedup.indexOf x : ℤ) % (K : ℤ))))

/-- The successful payload of the `/analyze` route: the data handed to
`render_template('results.html', ...)` in `app.py` lines 222–227 (the chart is
presentation-layer output outside the embedded core). -/
structure AnalysisResult where
  insights : List Insight
  kpis : Kpis
deriving DecidableEq, Repr

/-- Python `str.strip()` with no argument: remove leading and trailing
whitespace (`app.py` line 178: `c.strip()`). -/
def strip (l : List Char) : List Char :=
  ((l.dropWhile Char.isWhitespace).reverse.dropWhile Char.isWhitespace).reverse

/-- The `analyze` pipeline of `app.py` lines 157–231, from the already-parsed
table onward: header trimming (line 178), schema validation (lines 180–187),
clustering (lines 189–193), insights and KPIs (lines 215–220).  A `flash` +
`redirect` error path is an `Except.error` carrying the flashed message; the
`except  Exception` handler (lines 229–231) wraps a clustering failure as
`f'Error processing file: \x7bstr(e)\x7d'`. -/
def analyze (headers : List String) (rows : List RawRecord) : Except String AnalysisResult :=
  let cols := headers.map (fun c => strip c.toList)
  if requiredCols.all (fun c => cols.contains c.toList) then
    match kmeansFitPredict 5 (rows.map (fun r => (r.income, r.score))) with
    | Except.error e => Except.error ("Error processing file: " ++ e)
    | Except.ok cs =>
        let df := (rows.zip cs).map (fun p => p.1.withCluster p.2)
        Except.ok { insights := generate_insights df, kpis := kpisOf df }
  else
    Except.error schemaErrorMsg

/-- The characters after the last dot of a filename:
Python `filename.rsplit('.', 1)[1]` when the name contains a dot. -/
def afterLastDot (l : List Char) : List Char :=
  (l.reverse.takeWhile (fun c => c ≠ '.')).reverse

/-- `allowed_file` of `app.py` lines 20–30 with `ALLOWED_EXTENSIONS = \x7b'csv'\x7d`:
`'.' in filename and filename.rsplit('.', 1)[1].lower() in ALLOWED_EXTENSIONS`. -/
def allowed_file (l : List Char) : Bool :=
  l.contains '.' && (afterLastDot l).map Char.toLower == "csv".toList

/-- Population mean and variance of a column, the state
(`mean_`, `var_`) that `sklearn.preprocessing.StandardScaler.fit` stores. -/
def scalerColumnState (l : List ℚ) : ℚ × ℚ :=
  (qmean l, qmean (l.map (fun x => (x - qmean l) ^ 2)))

/-- The scaler state fitted by `scaler_income.fit_transform(df_features)` in
`app/model.py` line 63: a `StandardScaler` freshly fitted on the current
request's two feature columns, whose transform then produces the matrix
`X_scaled` passed to `kmeans_income.predict` on line 65. -/
def clusterIncomeScalerState (rows : List RawRecord) : (ℚ × ℚ) × (ℚ × ℚ) :=
  (scalerColumnState (rows.map (fun r => r.income)),
   scalerColumnState (rows.map (fun r => r.score)))

/-- Exhibit for the gender-percentage denominator: one Female row and one row
with a missing gender cell, both in cluster 0. -/
def c3df : List Record := [⟨some "Female", 30, 50, 50, 0⟩, ⟨none, 30, 50, 50, 0⟩]

/-- Exhibit: one Female row and one row with the non-missing gender value
"Other", both in cluster 0. -/
def c3dfOther : List Record := [⟨some "Female", 30, 50, 50, 0⟩, ⟨some "Other", 30, 50, 50, 0⟩]

/-- Exhibit request dataset for the scaler-state analysis. -/
def c2df1 : List RawRecord := [⟨none, 0, 0, 0⟩, ⟨none, 0, 2, 2⟩]

/-- Exhibit request dataset for the scaler-state analysis, with a different
feature spread than `c2df1`. -/
def c2df2 : List RawRecord := [⟨none, 0, 0, 0⟩, ⟨none, 0, 4, 4⟩]

/-- Exhibit dataset with only 3 distinct (income, score) points, fewer than
K = 5. -/
def c5rows : List RawRecord := [⟨none, 1, 10, 5⟩, ⟨none, 2, 20, 10⟩, ⟨none, 3, 30, 15⟩]

/-- Exhibit dataset whose income column is [10, 20, 30]. -/
def c8df : List Record := [⟨none, 20, 10, 5, 0⟩, ⟨none, 30, 20, 10, 0⟩, ⟨none, 40, 30, 15, 0⟩]

set_option maxRecDepth 4000

/-- Python `round` never exceeds its argument by more than 1/2. -/
theorem pyRound_le_add_half (q : ℚ) : (pyRound q : ℚ) ≤ q + 1/2 := by
  have hf := Int.floor_le q
  simp only [pyRound]
  split_ifs with h1 h2 h3
  · linarith
  · push_cast; linarith
  · linarith
  · push_cast; linarith

/-- Python `round` stays strictly below the argument plus 1/2 except at a tie
with odd floor (the only case banker's rounding rounds a half up). -/
theorem pyRound_lt_add_half (q : ℚ) (h : ¬ (q - (⌊q⌋ : ℚ) = 1/2 ∧ ¬ ⌊q⌋ % 2 = 0)) :
    (pyRound q : ℚ) < q + 1/2 := by
  have hf := Int.floor_le q
  simp only [pyRound]
  split_ifs with h1 h2 h3
  · linarith
  · push_cast; linarith
  · linarith
  · exact absurd ⟨by linarith, h3⟩ h

/-- At a tie with odd floor, Python `round` rounds up to the even integer. -/
theorem pyRound_tie_odd (q : ℚ) (h1 : q - (⌊q⌋ : ℚ) = 1/2) (h2 : ¬ ⌊q⌋ % 2 = 0) :
    pyRound q = ⌊q⌋ + 1 := by
  simp only [pyRound]
  rw [if_neg (by rw [h1]; norm_num), if_neg (by rw [h1]; norm_num), if_neg h2]

/-- Two independently banker's-rounded values whose exact sum is at most 100
have rounded sum at most 100: when both are ties that round up, both floors
are odd, so their exact sum is an odd integer and is at most 99. -/
theorem pyRound_add_le_100 (a b : ℚ) (hab : a + b ≤ 100) :
    pyRound a + pyRound b ≤ 100 := by
  by_cases ha : a - (⌊a⌋ : ℚ) = 1/2 ∧ ¬ ⌊a⌋ % 2 = 0
  · by_cases hb : b - (⌊b⌋ : ℚ) = 1/2 ∧ ¬ ⌊b⌋ % 2 = 0
    · rw [pyRound_tie_odd a ha.1 ha.2, pyRound_tie_odd b hb.1 hb.2]
      have hsum : (⌊a⌋ : ℚ) + (⌊b⌋ : ℚ) + 1 = a + b := by linarith [ha.1, hb.1]
      have h99 : ((⌊a⌋ + ⌊b⌋ : ℤ) : ℚ) ≤ 99 := by push_cast; linarith
      have h99' : ⌊a⌋ + ⌊b⌋ ≤ 99 := by exact_mod_cast h99
      have hoa := ha.2
      have hob := hb.2
      omega
    · have la := pyRound_le_add_half a
      have lb := pyRound_lt_add_half b hb
      have h101 : ((pyRound a + pyRound b : ℤ) : ℚ) < 101 := by push_cast; linarith
      have : (pyRound a + pyRound b : ℤ) < 101 := by exact_mod_cast h101
      omega
  · have la := pyRound_lt_add_half a ha
    have lb := pyRound_le_add_half b
    have h101 : ((pyRound a + pyRound b : ℤ) : ℚ) < 101 := by push_cast; linarith
    have : (pyRound a + pyRound b : ℤ) < 101 := by exact_mod_cast h101
    omega

/-- Rows counted as Female plus rows counted as Male never exceed the rows
with a non-missing gender value. -/
theorem genderCount_add_le (rows : List Record) :
    genderCount rows "Female" + genderCount rows "Male" ≤ knownGenderCount rows := by
  unfold genderCount knownGenderCount
  induction rows with
  | nil => simp
  | cons r l ih =>
    simp only [List.countP_cons]
    have hpt : (if (r.gender == some "Female") = true then 1 else 0)
        + (if (r.gender == some "Male") = true then 1 else 0)
        ≤ (if r.gender.isSome = true then 1 else 0) := by
      rcases hg : r.gender with _ | g
      · simp
      · by_cases hF : g = "Female"
        · subst hF; simp
        · by_cases hM : g = "Male"
          · subst hM; simp
          · simp [hF, hM]
    omega

/-- C1: the Insight Classifier's thresholds are strict.  A summary whose mean
income and mean score sit exactly on the boundary values — income = 70 and
score = 70, or income = 40, or score = 40, or score = 60 — matches none of
rules 1–4 of the decision table, so it is labeled "Average Customer" with
color "primary"; in particular income = 70 with score = 70 is not
"VIP / Big Spenders". -/
theorem c1_thm (income score age : ℚ)
    (h : (income = 70 ∧ score = 70) ∨ income = 40 ∨ score = 40 ∨ score = 60) :
    ¬ vipRule income score ∧ ¬ saverRule income score ∧ ¬ trendRule income score
    ∧ ¬ budgetRule income score
    ∧ (segmentRule income score age).1 = "Average Customer"
    ∧ (segmentRule income score age).2.1 = "primary" := by
  have h1 : ¬ (income > 70 ∧ score > 70) := by
    rcases h with ⟨ha, hb⟩ | ha | ha | ha <;> rintro ⟨x, y⟩ <;> linarith
  have h2 : ¬ (income > 70 ∧ score < 40) := by
    rcases h with ⟨ha, hb⟩ | ha | ha | ha <;> rintro ⟨x, y⟩ <;> linarith
  have h3 : ¬ (income < 40 ∧ score > 60) := by
    rcases h with ⟨ha, hb⟩ | ha | ha | ha <;> rintro ⟨x, y⟩ <;> linarith
  have h4 : ¬ (income < 40 ∧ score < 40) := by
    rcases h with ⟨ha, hb⟩ | ha | ha | ha <;> rintro ⟨x, y⟩ <;> linarith
  refine ⟨h1, h2, h3, h4, ?_, ?_⟩ <;>
    · unfold segmentRule
      rw [if_neg h1, if_neg h2, if_neg h3, if_neg h4]

/-- Witness for C1 at the boundary summary income = 70, score = 70, age = 30. -/
theorem c1_witness :
    ¬ vipRule 70 70 ∧ ¬ saverRule 70 70 ∧ ¬ trendRule 70 70 ∧ ¬ budgetRule 70 70
    ∧ (segmentRule 70 70 30).1 = "Average Customer"
    ∧ (segmentRule 70 70 30).2.1 = "primary" :=
  c1_thm 70 70 30 (Or.inl ⟨rfl, rfl⟩)

/-- C2: in the pretrained-model variant (`app/model.py`), the scaler state
whose transform feeds `kmeans_income.predict` is refit on every request's
data, so it is not — and cannot be — one fixed state the model was fit with:
two requests with different feature spreads already use two different scaler
states. -/
theorem c2_bug :
    clusterIncomeScalerState c2df1 ≠ clusterIncomeScalerState c2df2
    ∧ ¬ ∃ s : (ℚ × ℚ) × (ℚ × ℚ), ∀ rows : List RawRecord, clusterIncomeScalerState rows = s := by
  have h1 : clusterIncomeScalerState c2df1 = ((1, 1), (1, 1)) := by
    norm_num [clusterIncomeScalerState, scalerColumnState, qmean, c2df1, Prod.ext_iff]
  have h2 : clusterIncomeScalerState c2df2 = ((2, 4), (2, 4)) := by
    norm_num [clusterIncomeScalerState, scalerColumnState, qmean, c2df2, Prod.ext_iff]
  have hne : clusterIncomeScalerState c2df1 ≠ clusterIncomeScalerState c2df2 := by
    rw [h1, h2]
    simp [Prod.ext_iff]
  refine ⟨hne, ?_⟩
  rintro ⟨s, hs⟩
  exact hne ((hs c2df1).trans (hs c2df2).symm)

/-- C3 counterexample: in a cluster with one Female row and one row whose
gender is missing, the code computes female_pct = 100 (pandas `value_counts`
drops the NaN from the normalization denominator), while the claimed formula
with the total row count as denominator gives round(100·1/2) = 50. -/
theorem c3_counterexample :
    (generate_insights c3df).map (fun ins => ins.female_pct) = [100]
    ∧ specFemalePctOf c3df = 50
    ∧ (100 : ℤ) ≠ 50 := by
  refine ⟨?_, ?_, by decide⟩
  · simp [generate_insights, distinctClusters, c3df, insightFor, clusterRows]
    norm_num [femalePctOf, genderCount, knownGenderCount, List.countP, List.countP.go, pyRound]
  · norm_num [specFemalePctOf, genderCount, c3df, List.countP, List.countP.go, pyRound]

/-- C3 amended: female_pct (and analogously male_pct) equals
round(100 · count(gender = value) / count(rows with non-missing gender)),
rounded half to even: the denominator excludes rows whose gender is missing
but includes rows with any non-missing gender value — a cluster of one Female
row and one "Other" row yields female_pct = 50, male_pct = 0. -/
theorem c3_amended_thm (rows : List Record) :
    femalePctOf rows
      = pyRound (100 * (genderCount rows "Female" : ℚ)
          / ((rows.length - rows.countP (fun r => r.gender == none) : ℕ) : ℚ))
    ∧ malePctOf rows
      = pyRound (100 * (genderCount rows "Male" : ℚ)
          / ((rows.length - rows.countP (fun r => r.gender == none) : ℕ) : ℚ))
    ∧ femalePctOf c3dfOther = 50 ∧ malePctOf c3dfOther = 0 := by
  have hlen : rows.length - rows.countP (fun r => r.gender == none) = knownGenderCount rows := by
    unfold knownGenderCount
    have h : rows.countP (fun r => r.gender.isSome) + rows.countP (fun r => r.gender == none)
        = rows.length := by
      induction rows with
      | nil => simp
      | cons r l ih =>
        simp only [List.countP_cons, List.length_cons]
        have : ((if (r.gender.isSome : Bool) = true then 1 else 0)
            + (if (r.gender == none) = true then 1 else 0)) = 1 := by
          rcases r.gender <;> simp
        omega
    omega
  refine ⟨?_, ?_, ?_, ?_⟩
  · rw [hlen]; unfold femalePctOf; ring_nf
  · rw [hlen]; unfold malePctOf; ring_nf
  · have hOF : ("Other" == "Female") = false := by decide
    norm_num [femalePctOf, genderCount, knownGenderCount, c3dfOther,
      List.countP, List.countP.go, pyRound, hOF]
  · have hOM : ("Other" == "Male") = false := by decide
    have hFM : ("Female" == "Male") = false := by decide
    norm_num [malePctOf, genderCount, knownGenderCount, c3dfOther,
      List.countP, List.countP.go, pyRound, hOM, hFM]

/-- C4: the gender profile of a ClusterSummary is "Female Dominated" exactly
when female_pct is strictly above 55; otherwise it is "Male Dominated"
exactly when male_pct is strictly above 55; and a summary with female_pct
exactly 55 and male_pct at most 55 is "Balanced". -/
theorem c4_thm (fp mp : ℤ) :
    ((genderProfile fp mp).1 = "Female Dominated" ↔ fp > 55)
    ∧ (fp ≤ 55 → ((genderProfile fp mp).1 = "Male Dominated" ↔ mp > 55))
    ∧ (fp = 55 ∧ mp ≤ 55 → (genderProfile fp mp).1 = "Balanced") := by
  unfold genderProfile
  split_ifs with hf hm
  · refine ⟨by simp [hf], fun hc => absurd hf (by omega), fun hc => absurd hf (by omega)⟩
  · refine ⟨?_, fun _ => by simp [hm], fun hc => absurd hm (by omega)⟩
    constructor
    · intro hs; exact absurd hs (by decide)
    · intro hs; exact absurd hs hf
  · refine ⟨?_, ?_, fun _ => rfl⟩
    · constructor
      · intro hs; exact absurd hs (by decide)
      · intro hs; exact absurd hs hf
    · intro _
      constructor
      · intro hs; exact absurd hs (by decide)
      · intro hs; exact absurd hs hm

/-- Witness for C4 at the boundary female_pct = 55, male_pct = 40. -/
theorem c4_witness :
    (genderProfile 55 40).1 = "Balanced" :=
  (c4_thm 55 40).2.2 ⟨rfl, by decide⟩

/-- C5: when the feature matrix has fewer than K = 5 distinct points, the
clustering step fails and `analyze` surfaces the failure as an error: no
result — neither insights nor KPIs — is returned to the caller. -/
theorem c5_thm (headers : List String) (rows : List RawRecord)
    (hcols : (requiredCols.all
      (fun c => ((headers.map (fun s => strip s.toList)).contains c.toList))) = true)
    (hfew : ((rows.map (fun r => (r.income, r.score))).dedup.length < 5)) :
    analyze headers rows = Except.error "Error processing file: ClusteringError"
    ∧ ∀ res : AnalysisResult, analyze headers rows ≠ Except.ok res := by
  have h : analyze headers rows = Except.error "Error processing file: ClusteringError" := by
    simp only [analyze, kmeansFitPredict]
    rw [if_pos hcols, if_pos hfew]
    rfl
  refine ⟨h, fun res hok => ?_⟩
  rw [h] at hok
  exact Except.noConfusion hok

/-- Witness for C5: a valid header row and 3 distinct feature points. -/
theorem c5_witness :
    ((requiredCols.all
      (fun c => ((requiredCols.map (fun s => strip s.toList)).contains c.toList))) = true)
    ∧ ((c5rows.map (fun r => (r.income, r.score))).dedup.length < 5)
    ∧ (analyze requiredCols c5rows = Except.error "Error processing file: ClusteringError"
      ∧ ∀ res : AnalysisResult, analyze requiredCols c5rows ≠ Except.ok res) :=
  ⟨by decide, by decide, c5_thm requiredCols c5rows (by decide) (by decide)⟩

/-- C6: when at least one required column is missing after trimming the
headers, `analyze` fails with the schema error message, and that message
names every required column — hence every missing one. -/
theorem c6_thm (headers : List String) (rows : List RawRecord)
    (hmiss : ∃ c ∈ requiredCols, c.toList ∉ headers.map (fun s => strip s.toList)) :
    analyze headers rows = Except.error schemaErrorMsg
    ∧ ∀ c ∈ requiredCols, List.IsInfix c.toList schemaErrorMsg.toList := by
  have hall : ¬ ((requiredCols.all
      (fun c => ((headers.map (fun s => strip s.toList)).contains c.toList))) = true) := by
    rcases hmiss with ⟨c, hc, hnot⟩
    intro hall
    rw [List.all_eq_true] at hall
    exact hnot (by simpa using hall c hc)
  constructor
  · simp only [analyze]
    rw [if_neg hall]
  · decide

/-- Witness for C6: a table with only the Gender and Age columns. -/
theorem c6_witness :
    (∃ c ∈ requiredCols, c.toList ∉ (["Gender", "Age"] : List String).map (fun s => strip s.toList))
    ∧ (analyze ["Gender", "Age"] [] = Except.error schemaErrorMsg
      ∧ ∀ c ∈ requiredCols, List.IsInfix c.toList schemaErrorMsg.toList) := by
  have h : ∃ c ∈ requiredCols,
      c.toList ∉ (["Gender", "Age"] : List String).map (fun s => strip s.toList) := by
    refine ⟨"Annual Income (k$)", by decide, by decide⟩
  exact ⟨h, c6_thm ["Gender", "Age"] [] h⟩

/-- C7: the independently rounded gender percentages of a cluster never sum
above 100, for every cluster composition (missing genders and gender values
other than Male/Female included), because Python rounds halves to even. -/
theorem c7_thm (rows : List Record) :
    femalePctOf rows + malePctOf rows ≤ 100 := by
  have hcnt := genderCount_add_le rows
  unfold femalePctOf malePctOf
  rcases Nat.eq_zero_or_pos (knownGenderCount rows) with h0 | hpos
  · have hF : genderCount rows "Female" = 0 := by omega
    have hM : genderCount rows "Male" = 0 := by omega
    rw [hF, hM, h0]
    norm_num [pyRound]
  · apply pyRound_add_le_100
    have hn : (0 : ℚ) < (knownGenderCount rows : ℚ) := by exact_mod_cast hpos
    rw [div_mul_eq_mul_div, div_mul_eq_mul_div, div_add_div_same, div_le_iff₀ hn]
    have hq : (genderCount rows "Female" : ℚ) + (genderCount rows "Male" : ℚ)
        ≤ (knownGenderCount rows : ℚ) := by exact_mod_cast hcnt
    linarith

/-- C8: the aggregate KPIs of a non-empty dataset are the record count and
the two column means rounded to 2 decimals; for the income column
[10, 20, 30] the reported average income is 20. -/
theorem c8_thm :
    (∀ df : List Record, df ≠ [] →
      (kpisOf df).total_customers = df.length
      ∧ (kpisOf df).avg_income = round2 ((df.map (fun r => r.income)).sum / (df.length : ℚ))
      ∧ (kpisOf df).avg_score = round2 ((df.map (fun r => r.score)).sum / (df.length : ℚ)))
    ∧ (kpisOf c8df).avg_income = 20 := by
  constructor
  · intro df _
    refine ⟨rfl, ?_, ?_⟩ <;> simp [kpisOf, qmean]
  · norm_num [kpisOf, qmean, c8df, round2, pyRound]

/-- Witness for C8 at the dataset with incomes [10, 20, 30]. -/
theorem c8_witness :
    c8df ≠ []
    ∧ ((kpisOf c8df).total_customers = c8df.length
      ∧ (kpisOf c8df).avg_income = round2 ((c8df.map (fun r => r.income)).sum / (c8df.length : ℚ))
      ∧ (kpisOf c8df).avg_score = round2 ((c8df.map (fun r => r.score)).sum / (c8df.length : ℚ))) :=
  ⟨List.cons_ne_nil _ _, c8_thm.1 c8df (List.cons_ne_nil _ _)⟩

/-- An insight carries the cluster id it was generated for. -/
theorem insightFor_cluster (df : List Record) (i : ℤ) : (insightFor df i).cluster = i := rfl

/-- An insight's size is the number of rows of its cluster. -/
theorem insightFor_size (df : List Record) (i : ℤ) :
    (insightFor df i).size = (clusterRows df i).length := rfl

/-- The cluster ids of the generated insights are exactly the sorted distinct
cluster ids of the DataFrame. -/
theorem generate_insights_clusters (df : List Record) :
    (generate_insights df).map (fun ins => ins.cluster) = distinctClusters df := by
  unfold generate_insights
  rw [List.map_map]
  have : ((fun ins : Insight => ins.cluster) ∘ insightFor df) = fun i => i := rfl
  rw [this, List.map_id']

/-- A cluster's row count is the count of its id in the cluster column. -/
theorem clusterRows_length_count (df : List Record) (j : ℤ) :
    (clusterRows df j).length = (df.map (fun r => r.cluster)).count j := by
  rw [clusterRows, ← List.countP_eq_length_filter, List.count, List.countP_map]
  rfl

/-- The sorted distinct cluster ids are a permutation of the deduplicated
cluster column. -/
theorem distinctClusters_perm_dedup (df : List Record) :
    List.Perm (distinctClusters df) ((df.map (fun r => r.cluster)).dedup) := by
  unfold distinctClusters
  rw [List.perm_ext_iff_of_nodup (Finset.sort_nodup _ _) (List.nodup_dedup _)]
  intro a
  simp [Finset.mem_sort, List.mem_toFinset, List.mem_dedup]

/-- C9: the insight generator emits exactly one Insight per distinct
cluster_id present in the clustered DataFrame (no duplicates, none missing),
each Insight's size is the number of records bearing its cluster_id, and the
emitted sizes sum to the total number of records. -/
theorem c9_thm (df : List Record) :
    ((generate_insights df).map (fun ins => ins.cluster)).Nodup
    ∧ (∀ i : ℤ, i ∈ (generate_insights df).map (fun ins => ins.cluster)
        ↔ i ∈ df.map (fun r => r.cluster))
    ∧ (∀ ins ∈ generate_insights df,
        ins.size = (df.filter (fun r => r.cluster == ins.cluster)).length)
    ∧ ((generate_insights df).map (fun ins => ins.size)).sum = df.length := by
  refine ⟨?_, ?_, ?_, ?_⟩
  · rw [generate_insights_clusters]
    exact Finset.sort_nodup _ _
  · intro i
    rw [generate_insights_clusters]
    simp [distinctClusters, Finset.mem_sort, List.mem_toFinset]
  · intro ins hins
    unfold generate_insights at hins
    rcases List.mem_map.mp hins with ⟨j, _, rfl⟩
    rw [insightFor_size, insightFor_cluster]
    rfl
  · unfold generate_insights
    rw [List.map_map]
    have hfun : ((fun ins : Insight => ins.size) ∘ insightFor df)
        = fun j => (df.map (fun r => r.cluster)).count j := by
      funext j
      exact (insightFor_size df j).trans (clusterRows_length_count df j)
    rw [hfun]
    rw [List.Perm.sum_eq ((distinctClusters_perm_dedup df).map _)]
    rw [List.sum_map_count_dedup_eq_length, List.length_map]

/-- A list's takeWhile stops exactly at the first failing element. -/
theorem takeWhile_append_stop {α : Type} (p : α → Bool) (a : α) (l1 l2 : List α)
    (h1 : ∀ x ∈ l1, p x = true) (h2 : p a = false) :
    (l1 ++ a :: l2).takeWhile p = l1 := by
  induction l1 with
  | nil => simp [List.takeWhile_cons, h2]
  | cons x xs ih =>
    have hx : p x = true := h1 x (List.mem_cons_self x xs)
    simp [hx, ih (fun y hy => h1 y (List.mem_cons_of_mem x hy))]

/-- The suffix after the last dot of `pre ++ "." ++ suf` is `suf` when `suf`
is dot-free. -/
theorem afterLastDot_append (pre suf : List Char) (h : '.' ∉ suf) :
    afterLastDot (pre ++ '.' :: suf) = suf := by
  unfold afterLastDot
  rw [List.reverse_append, List.reverse_cons]
  rw [List.append_assoc, List.singleton_append]
  rw [takeWhile_append_stop _ '.' suf.reverse (pre.reverse) ?h1 (by decide)]
  · exact List.reverse_reverse suf
  case h1 =>
    intro x hx
    have : x ∈ suf := List.mem_reverse.mp hx
    simp only [decide_eq_true_eq]
    intro he
    exact h (he ▸ this)

/-- C10: `allowed_file` accepts a filename iff it contains a dot and the
substring after its last dot equals "csv" case-insensitively: it rejects any
dotless name, accepts "data.CSV", and rejects "csv" and "data.csv.txt". -/
theorem c10_thm :
    (∀ l : List Char, '.' ∉ l → allowed_file l = false)
    ∧ (∀ pre suf : List Char, '.' ∉ suf →
        (allowed_file (pre ++ '.' :: suf) = true ↔ suf.map Char.toLower = "csv".toList))
    ∧ allowed_file "data.CSV".toList = true
    ∧ allowed_file "csv".toList = false
    ∧ allowed_file "data.csv.txt".toList = false := by
  refine ⟨?_, ?_, by decide, by decide, by decide⟩
  · intro l hl
    unfold allowed_file
    have : l.contains '.' = false := by
      simpa using hl
    rw [this]
    rfl
  · intro pre suf h
    unfold allowed_file
    have hc : (pre ++ '.' :: suf).contains '.' = true := by
      simp
    rw [hc, afterLastDot_append pre suf h, Bool.true_and, beq_iff_eq]

/-- Witness for C10 at the filename "data.CSV". -/
theorem c10_witness :
    allowed_file ("data".toList ++ '.' :: "CSV".toList) = true :=
  (c10_thm.2.1 "data".toList "CSV".toList (by decide)).mpr (by decide)

end CustomerSeg
